import Mathlib

/-!
Shallow embedding of the BBR congestion controller of `src/core/bbr.c` and of the
scalar Kalman filter of `src/core/kalman_filter.c`, together with theorems that
check the natural-language specification against this embedding.

Conventions:
* C `uint64_t` / `uint32_t` / `uint16_t` / `uint8_t` values are `Nat`; at every
  arithmetic site where the C computation can wrap, the result is reduced
  `% 2^64` (resp. `% 2^32`, `% 2^8`) exactly as the C types dictate.  Where a C
  subtraction is guarded by a debug assertion `a >= b` we use truncated `Nat`
  subtraction; where the C code can genuinely wrap we use the wrapping helpers.
* C `double` values (Kalman filter only) are modelled as rationals `ℚ`.
* Write-only logging fields of the source (`RecentSendRate`, `RecentAckRate`,
  `RecentDeliveryRate`, `RecentSendDelay`, `RecentAckDelay`, `LastPeriodicLog*`,
  `LastLogged*`) and the file-logging statements are omitted: no other source
  statement reads them.
-/

/-- 2^8, the modulus of C `uint8_t` arithmetic. -/
def two8 : Nat := 256

/-- 2^32, the modulus of C `uint32_t` arithmetic. -/
def two32 : Nat := 4294967296

/-- 2^63, used by the signed interpretation of a wrapped `uint64_t` difference. -/
def two63 : Nat := 9223372036854775808

/-- 2^64, the modulus of C `uint64_t` arithmetic. -/
def two64 : Nat := 18446744073709551616

/-- C `UINT32_MAX`. -/
def UINT32_MAX : Nat := 4294967295

/-- C `UINT64_MAX`. -/
def UINT64_MAX : Nat := 18446744073709551615

/-- Wrapping `uint32_t` subtraction `a - b`. -/
def u32sub (a b : Nat) : Nat := (a + two32 - b % two32) % two32

/-- Wrapping `uint64_t` subtraction `a - b`. -/
def u64sub (a b : Nat) : Nat := (a + two64 - b % two64) % two64

/-- Modelled from the spec: the platform time helpers are declared in headers that
are not under `src/`.  Times are monotonic microsecond `uint64_t` counters and
`CxPlatTimeDiff64 T1 T2` is the wrapping difference `T2 - T1`. -/
def CxPlatTimeDiff64 (t1 t2 : Nat) : Nat := u64sub t2 t1

/-- Modelled from the spec: the platform time helpers are declared in headers that
are not under `src/`.  `CxPlatTimeAtOrBefore64 T1 T2` is the signed comparison
`(int64_t)(T1 - T2) <= 0` of the wrapped difference. -/
def CxPlatTimeAtOrBefore64 (t1 t2 : Nat) : Bool :=
  u64sub t1 t2 = 0 ∨ two63 ≤ u64sub t1 t2

/-! ### Constants of `bbr.c` (lines 61-129) -/

/-- Bandwidth is measured as (bytes / BW_UNIT) per second. -/
def BW_UNIT : Nat := 8

/-- Gain is measured as (1 / GAIN_UNIT). -/
def GAIN_UNIT : Nat := 256

/-- The length of the gain cycle. -/
def GAIN_CYCLE_LENGTH : Nat := 8

def kQuantaFactor : Nat := 3

def kMinCwndInMss : Nat := 4

def kDefaultRecoveryCwndInMss : Nat := 2000

def kMicroSecsInSec : Nat := 1000000

def kMilliSecsInSec : Nat := 1000

def kLowPacingRateThresholdBytesPerSecond : Nat := 1200 * 1000

def kHighPacingRateThresholdBytesPerSecond : Nat := 24 * 1000 * 1000

def kHighGain : Nat := GAIN_UNIT * 2885 / 1000 + 1

def kDrainGain : Nat := GAIN_UNIT * 1000 / 2885

/-- Cwnd gain during ProbeBw. -/
def kCwndGain : Nat := GAIN_UNIT * 2

def kStartupGrowthTarget : Nat := GAIN_UNIT * 5 / 4

def kStartupSlowGrowRoundLimit : Nat := 3

/-- The cycle of gains used during the PROBE_BW stage. -/
def kPacingGain : List Nat :=
  [GAIN_UNIT * 5 / 4, GAIN_UNIT * 3 / 4,
   GAIN_UNIT, GAIN_UNIT, GAIN_UNIT, GAIN_UNIT, GAIN_UNIT, GAIN_UNIT]

def kProbeRttTimeInUs : Nat := 200 * 1000

def kBbrMinRttExpirationInMicroSecs : Nat := 10 * 1000000

def kBbrMaxBandwidthFilterLen : Nat := 10

def kBbrMaxAckHeightFilterLen : Nat := 10

/-- Modelled from the spec: the constant `kBbrDefaultFilterCapacity` is declared in
code that is not under `src/`; the spec only says the deque capacity is small
(order 10).  None of the theorems below depends on its value. -/
def kBbrDefaultFilterCapacity : Nat := 5

/-! ### Sliding-window extremum (spec section 4.4)

Modelled from the spec: the source file `sliding_window_extremum.c` that defines
`QuicSlidingWindowExtremum*` is not under `src/`; spec section 4.4 describes a
monotone deque over (value, time) pairs with a time window and a fixed capacity.
The list `Entries` is ordered front (current extremum, oldest) to back. -/

structure QUIC_SLIDING_WINDOW_EXTREMUM_ENTRY where
  Value : Nat
  Time : Nat
  deriving Repr, DecidableEq

structure QUIC_SLIDING_WINDOW_EXTREMUM where
  EntryLifetime : Nat
  Capacity : Nat
  Entries : List QUIC_SLIDING_WINDOW_EXTREMUM_ENTRY
  deriving Repr, DecidableEq

/-- Modelled from the spec: constructor used by `BbrCongestionControlInitialize`. -/
def QuicSlidingWindowExtremumInit (lifetime capacity : Nat) : QUIC_SLIDING_WINDOW_EXTREMUM :=
  { EntryLifetime := lifetime, Capacity := capacity, Entries := [] }

/-- Modelled from the spec: `reset()` empties the deque. -/
def QuicSlidingWindowExtremumReset (w : QUIC_SLIDING_WINDOW_EXTREMUM) :
    QUIC_SLIDING_WINDOW_EXTREMUM :=
  { w with Entries := [] }

/-- Modelled from the spec: `get()` returns the front (the current extremum), or
nothing when the deque is empty. -/
def QuicSlidingWindowExtremumGet (w : QUIC_SLIDING_WINDOW_EXTREMUM) :
    Option QUIC_SLIDING_WINDOW_EXTREMUM_ENTRY :=
  w.Entries.head?

/-- Modelled from the spec: `update_max(value, time)` pops dominated entries from
the back, pushes the new pair, expires entries strictly older than
`time - window_len` from the front, and drops the oldest entry on capacity
overflow. -/
def QuicSlidingWindowExtremumUpdateMax (w : QUIC_SLIDING_WINDOW_EXTREMUM)
    (value time : Nat) : QUIC_SLIDING_WINDOW_EXTREMUM :=
  let pruned := (w.Entries.reverse.dropWhile (fun e => e.Value ≤ value)).reverse
  let pushed := pruned ++ [{ Value := value, Time := time }]
  let aged := pushed.dropWhile (fun e => e.Time + w.EntryLifetime < time)
  let bounded := if w.Capacity < aged.length then aged.drop (aged.length - w.Capacity) else aged
  { w with Entries := bounded }

/-! ### Event and state structures (`bbr.c`, `quic_ack_event` / `quic_loss_event`) -/

/-- The `LastAckedPacketInfo` record carried by an acked packet's metadata. -/
structure LAST_ACKED_PACKET_INFO where
  SentTime : Nat
  AckTime : Nat
  AdjustedAckTime : Nat
  TotalBytesSent : Nat
  TotalBytesAcked : Nat
  deriving Repr, DecidableEq

/-- The fields of `QUIC_SENT_PACKET_METADATA` read by `bbr.c`. -/
structure QUIC_SENT_PACKET_METADATA where
  PacketLength : Nat
  SentTime : Nat
  TotalBytesSent : Nat
  HasLastAckedPacketInfo : Bool
  LastAckedPacketInfo : LAST_ACKED_PACKET_INFO
  IsAppLimited : Bool
  deriving Repr, DecidableEq

/-- The fields of `QUIC_ACK_EVENT` read by `bbr.c`; the intrusive `AckedPackets`
list is a Lean list. -/
structure QUIC_ACK_EVENT where
  TimeNow : Nat
  LargestAck : Nat
  LargestSentPacketNumber : Nat
  NumRetransmittableBytes : Nat
  NumTotalAckedRetransmittableBytes : Nat
  IsImplicit : Bool
  HasLoss : Bool
  IsLargestAckedPacketAppLimited : Bool
  MinRttValid : Bool
  MinRtt : Nat
  AdjustedAckTime : Nat
  AckedPackets : List QUIC_SENT_PACKET_METADATA
  deriving Repr, DecidableEq

/-- The fields of `QUIC_LOSS_EVENT` read by `bbr.c`
(`LargestPacketNumberLost` is only logged and is omitted). -/
structure QUIC_LOSS_EVENT where
  LargestSentPacketNumber : Nat
  NumRetransmittableBytes : Nat
  PersistentCongestion : Bool
  deriving Repr, DecidableEq

inductive BBR_STATE where
  | STARTUP
  | DRAIN
  | PROBE_BW
  | PROBE_RTT
  deriving Repr, DecidableEq

inductive RECOVERY_STATE where
  | NOT_RECOVERY
  | CONSERVATIVE
  | GROWTH
  deriving Repr, DecidableEq

/-- `BBR_BANDWIDTH_FILTER`. -/
structure BBR_BANDWIDTH_FILTER where
  WindowedMaxFilter : QUIC_SLIDING_WINDOW_EXTREMUM
  AppLimited : Bool
  AppLimitedExitTarget : Nat
  deriving Repr, DecidableEq

/-- The fields of `QUIC_CONGESTION_CONTROL_BBR` that carry controller state
(write-only logging fields omitted, see the file header). -/
structure QUIC_CONGESTION_CONTROL_BBR where
  BytesInFlight : Nat
  BytesInFlightMax : Nat
  Exemptions : Nat
  CongestionWindow : Nat
  InitialCongestionWindow : Nat
  InitialCongestionWindowPackets : Nat
  RecoveryWindow : Nat
  RecoveryState : RECOVERY_STATE
  BbrState : BBR_STATE
  RoundTripCounter : Nat
  CwndGain : Nat
  PacingGain : Nat
  BtlbwFound : Bool
  SendQuantum : Nat
  SlowStartupRoundCounter : Nat
  PacingCycleIndex : Nat
  AggregatedAckBytes : Nat
  ExitingQuiescence : Bool
  LastEstimatedStartupBandwidth : Nat
  CycleStart : Nat
  AckAggregationStartTime : Nat
  AckAggregationStartTimeValid : Bool
  EndOfRecovery : Nat
  EndOfRecoveryValid : Bool
  ProbeRttRound : Nat
  ProbeRttRoundValid : Bool
  EndOfRoundTrip : Nat
  EndOfRoundTripValid : Bool
  ProbeRttEndTime : Nat
  ProbeRttEndTimeValid : Bool
  RttSampleExpired : Bool
  MinRttTimestampValid : Bool
  MinRtt : Nat
  MinRttTimestamp : Nat
  MaxAckHeightFilter : QUIC_SLIDING_WINDOW_EXTREMUM
  BandwidthFilter : BBR_BANDWIDTH_FILTER
  deriving Repr, DecidableEq

/-- The per-connection inputs `bbr.c` reads from outside the BBR state:
the path's datagram payload size (`QuicPathGetDatagramPayloadSize`),
`Connection->Settings.PacingEnabled`, and the constant
`QUIC_SEND_PACING_INTERVAL`.  Modelled from the spec: the numeric value of
`QUIC_SEND_PACING_INTERVAL` is defined in a header that is not under `src/`,
so it is kept as a parameter here. -/
structure BbrEnv where
  DatagramPayloadLength : Nat
  PacingEnabled : Bool
  SendPacingInterval : Nat
  deriving Repr, DecidableEq

/-! ### Read-only helpers of `bbr.c` -/

/-- `BbrCongestionControlGetBandwidth` (bbr.c:220-232): the windowed-max value of
the bandwidth filter, or 0 when the filter is empty. -/
def BbrCongestionControlGetBandwidth (s : QUIC_CONGESTION_CONTROL_BBR) : Nat :=
  match QuicSlidingWindowExtremumGet s.BandwidthFilter.WindowedMaxFilter with
  | some e => e.Value
  | none => 0

/-- `BbrCongestionControlInRecovery` (bbr.c:234-241). -/
def BbrCongestionControlInRecovery (s : QUIC_CONGESTION_CONTROL_BBR) : Bool :=
  s.RecoveryState ≠ RECOVERY_STATE.NOT_RECOVERY

/-- `BbrCongestionControlGetCongestionWindow` (bbr.c:243-266). -/
def BbrCongestionControlGetCongestionWindow (env : BbrEnv)
    (s : QUIC_CONGESTION_CONTROL_BBR) : Nat :=
  let MinCongestionWindow := kMinCwndInMss * env.DatagramPayloadLength
  if s.BbrState = BBR_STATE.PROBE_RTT then
    MinCongestionWindow
  else if BbrCongestionControlInRecovery s then
    min s.CongestionWindow s.RecoveryWindow
  else
    s.CongestionWindow

/-- `BbrCongestionControlIsAppLimited` (bbr.c:300-307). -/
def BbrCongestionControlIsAppLimited (s : QUIC_CONGESTION_CONTROL_BBR) : Bool :=
  s.BandwidthFilter.AppLimited

/-- `BbrCongestionControlCanSend` (bbr.c:363-371). -/
def BbrCongestionControlCanSend (env : BbrEnv) (s : QUIC_CONGESTION_CONTROL_BBR) : Bool :=
  s.BytesInFlight < BbrCongestionControlGetCongestionWindow env s || s.Exemptions > 0

/-- `BbrCongestionControlGetTargetCwnd` (bbr.c:689-707).  The `uint64_t` product
`BandwidthEst * MinRtt` wraps `% 2^64`, as does `Bdp * Gain`; the `uint32_t`
return type truncates `% 2^32`. -/
def BbrCongestionControlGetTargetCwnd (s : QUIC_CONGESTION_CONTROL_BBR) (Gain : Nat) : Nat :=
  let BandwidthEst := BbrCongestionControlGetBandwidth s
  if BandwidthEst = 0 ∨ s.MinRtt = UINT32_MAX then
    Gain * s.InitialCongestionWindow / GAIN_UNIT % two32
  else
    let Bdp := BandwidthEst * s.MinRtt % two64 / kMicroSecsInSec / BW_UNIT
    let TargetCwnd := (Bdp * Gain % two64 / GAIN_UNIT + kQuantaFactor * s.SendQuantum) % two64
    TargetCwnd % two32

/-- `BbrCongestionControlGetSendAllowance` (bbr.c:709-764).  In the Startup arm,
`CongestionWindow * PacingGain` is a `uint32_t` product (wraps `% 2^32`) and the
subtraction of `BytesInFlight` is wrapping `uint32_t` subtraction; the bandwidth
products are `uint64_t` (wrap `% 2^64`); the value is truncated to `uint32_t`
before the congestion-window clamp and the quarter-window cap. -/
def BbrCongestionControlGetSendAllowance (env : BbrEnv) (s : QUIC_CONGESTION_CONTROL_BBR)
    (TimeSinceLastSend : Nat) (TimeSinceLastSendValid : Bool) : Nat :=
  let BandwidthEst := BbrCongestionControlGetBandwidth s
  let CongestionWindow := BbrCongestionControlGetCongestionWindow env s
  if CongestionWindow ≤ s.BytesInFlight then
    0
  else if ¬TimeSinceLastSendValid ∨ ¬env.PacingEnabled ∨
      s.MinRtt = UINT32_MAX ∨ s.MinRtt < env.SendPacingInterval then
    CongestionWindow - s.BytesInFlight
  else
    let SendAllowance :=
      if s.BbrState = BBR_STATE.STARTUP then
        max (BandwidthEst * s.PacingGain % two64 * TimeSinceLastSend % two64 / GAIN_UNIT)
            (u32sub (CongestionWindow * s.PacingGain % two32 / GAIN_UNIT) s.BytesInFlight)
          % two32
      else
        BandwidthEst * s.PacingGain % two64 * TimeSinceLastSend % two64 / GAIN_UNIT % two32
    let SendAllowance :=
      if CongestionWindow - s.BytesInFlight < SendAllowance then
        CongestionWindow - s.BytesInFlight
      else SendAllowance
    if CongestionWindow / 4 < SendAllowance then CongestionWindow / 4 else SendAllowance

/-! ### State transitions of `bbr.c` -/

/-- `BbrCongestionControlTransitToProbeBw` (bbr.c:268-287).  `rnd` stands for the
`uint32_t` filled in by `CxPlatRandom`. -/
def BbrCongestionControlTransitToProbeBw (s : QUIC_CONGESTION_CONTROL_BBR)
    (CongestionEventTime rnd : Nat) : QUIC_CONGESTION_CONTROL_BBR :=
  let idx := (rnd % two32 % (GAIN_CYCLE_LENGTH - 1) + 2) % GAIN_CYCLE_LENGTH
  { s with BbrState := BBR_STATE.PROBE_BW,
           CwndGain := kCwndGain,
           PacingCycleIndex := idx,
           PacingGain := kPacingGain.getD idx 0,
           CycleStart := CongestionEventTime }

/-- `BbrCongestionControlTransitToStartup` (bbr.c:289-298). -/
def BbrCongestionControlTransitToStartup (s : QUIC_CONGESTION_CONTROL_BBR) :
    QUIC_CONGESTION_CONTROL_BBR :=
  { s with BbrState := BBR_STATE.STARTUP, PacingGain := kHighGain, CwndGain := kHighGain }

/-- `BbrCongestionControlTransitToDrain` (bbr.c:784-793). -/
def BbrCongestionControlTransitToDrain (s : QUIC_CONGESTION_CONTROL_BBR) :
    QUIC_CONGESTION_CONTROL_BBR :=
  { s with BbrState := BBR_STATE.DRAIN, PacingGain := kDrainGain, CwndGain := kHighGain }

/-- `BbrCongestionControlTransitToProbeRtt` (bbr.c:766-782). -/
def BbrCongestionControlTransitToProbeRtt (s : QUIC_CONGESTION_CONTROL_BBR)
    (LargestSentPacketNumber : Nat) : QUIC_CONGESTION_CONTROL_BBR :=
  { s with BbrState := BBR_STATE.PROBE_RTT,
           PacingGain := GAIN_UNIT,
           ProbeRttEndTimeValid := false,
           ProbeRttRoundValid := false,
           BandwidthFilter := { s.BandwidthFilter with
             AppLimited := true, AppLimitedExitTarget := LargestSentPacketNumber } }

/-- `BbrCongestionControlSetSendQuantum` (bbr.c:795-818). -/
def BbrCongestionControlSetSendQuantum (env : BbrEnv) (s : QUIC_CONGESTION_CONTROL_BBR) :
    QUIC_CONGESTION_CONTROL_BBR :=
  let Bandwidth := BbrCongestionControlGetBandwidth s
  let PacingRate := Bandwidth * s.PacingGain % two64 / GAIN_UNIT
  { s with SendQuantum :=
      if PacingRate < kLowPacingRateThresholdBytesPerSecond * BW_UNIT then
        env.DatagramPayloadLength
      else if PacingRate < kHighPacingRateThresholdBytesPerSecond * BW_UNIT then
        env.DatagramPayloadLength * 2
      else
        min (PacingRate * kMilliSecsInSec % two64 / BW_UNIT) (64 * 1024) }

/-- `BbrCongestionControlUpdateRecoveryWindow` (bbr.c:572-597).  The caller
asserts `RecoveryState != NOT_RECOVERY`. -/
def BbrCongestionControlUpdateRecoveryWindow (env : BbrEnv)
    (s : QUIC_CONGESTION_CONTROL_BBR) (BytesAcked : Nat) : QUIC_CONGESTION_CONTROL_BBR :=
  let rw :=
    if s.RecoveryState = RECOVERY_STATE.GROWTH then (s.RecoveryWindow + BytesAcked) % two32
    else s.RecoveryWindow
  let RecoveryWindow := max rw ((s.BytesInFlight + BytesAcked) % two32)
  let MinCongestionWindow := kMinCwndInMss * env.DatagramPayloadLength
  { s with RecoveryWindow := max RecoveryWindow MinCongestionWindow }

/-- `BbrCongestionControlUpdateCongestionWindow` (bbr.c:820-861). -/
def BbrCongestionControlUpdateCongestionWindow (env : BbrEnv)
    (s : QUIC_CONGESTION_CONTROL_BBR) (TotalBytesAcked AckedBytes : Nat) :
    QUIC_CONGESTION_CONTROL_BBR :=
  if s.BbrState = BBR_STATE.PROBE_RTT then
    s
  else
    let s1 := BbrCongestionControlSetSendQuantum env s
    let TargetCwnd := BbrCongestionControlGetTargetCwnd s1 s1.CwndGain
    let TargetCwnd :=
      if s1.BtlbwFound then
        match QuicSlidingWindowExtremumGet s1.MaxAckHeightFilter with
        | some e => (TargetCwnd + e.Value) % two64
        | none => TargetCwnd
      else TargetCwnd
    let MinCongestionWindow := kMinCwndInMss * env.DatagramPayloadLength
    let CongestionWindow :=
      if s1.BtlbwFound then
        min TargetCwnd ((s1.CongestionWindow + AckedBytes) % two64) % two32
      else if s1.CongestionWindow < TargetCwnd ∨ TotalBytesAcked < s1.InitialCongestionWindow then
        (s1.CongestionWindow + AckedBytes % two32) % two32
      else s1.CongestionWindow
    { s1 with CongestionWindow := max CongestionWindow MinCongestionWindow }

/-- `BbrCongestionControlHandleAckInProbeRtt` (bbr.c:599-647).  `rnd` models the
random value consumed if `BbrCongestionControlTransitToProbeBw` runs. -/
def BbrCongestionControlHandleAckInProbeRtt (env : BbrEnv)
    (s : QUIC_CONGESTION_CONTROL_BBR) (NewRoundTrip : Bool)
    (LargestSentPacketNumber AckTime rnd : Nat) : QUIC_CONGESTION_CONTROL_BBR :=
  let s := { s with BandwidthFilter := { s.BandwidthFilter with
               AppLimited := true, AppLimitedExitTarget := LargestSentPacketNumber } }
  if ¬s.ProbeRttEndTimeValid ∧
      s.BytesInFlight <
        (BbrCongestionControlGetCongestionWindow env s + env.DatagramPayloadLength) % two32 then
    { s with ProbeRttEndTime := (AckTime + kProbeRttTimeInUs) % two64,
             ProbeRttEndTimeValid := true,
             ProbeRttRoundValid := false }
  else if s.ProbeRttEndTimeValid then
    let s :=
      if ¬s.ProbeRttRoundValid ∧ NewRoundTrip then
        { s with ProbeRttRoundValid := true, ProbeRttRound := s.RoundTripCounter }
      else s
    if s.ProbeRttRoundValid ∧ CxPlatTimeAtOrBefore64 s.ProbeRttEndTime AckTime then
      let s := { s with MinRttTimestamp := AckTime, MinRttTimestampValid := true }
      if s.BtlbwFound then BbrCongestionControlTransitToProbeBw s AckTime rnd
      else BbrCongestionControlTransitToStartup s
    else s
  else s

/-- `BbrCongestionControlUpdateAckAggregation` (bbr.c:649-687).  The source
returns the current excess; the only caller discards that value, so the model
returns just the state. -/
def BbrCongestionControlUpdateAckAggregation (s : QUIC_CONGESTION_CONTROL_BBR)
    (ack : QUIC_ACK_EVENT) : QUIC_CONGESTION_CONTROL_BBR :=
  if ¬s.AckAggregationStartTimeValid then
    { s with AckAggregationStartTime := ack.TimeNow, AckAggregationStartTimeValid := true }
  else
    let ExpectedAckBytes :=
      BbrCongestionControlGetBandwidth s *
        CxPlatTimeDiff64 s.AckAggregationStartTime ack.TimeNow % two64 /
        kMicroSecsInSec / BW_UNIT
    if s.AggregatedAckBytes ≤ ExpectedAckBytes then
      { s with AggregatedAckBytes := ack.NumRetransmittableBytes,
               AckAggregationStartTime := ack.TimeNow,
               AckAggregationStartTimeValid := true }
    else
      let agg := (s.AggregatedAckBytes + ack.NumRetransmittableBytes) % two64
      { s with AggregatedAckBytes := agg,
               MaxAckHeightFilter :=
                 QuicSlidingWindowExtremumUpdateMax s.MaxAckHeightFilter
                   (u64sub agg ExpectedAckBytes) s.RoundTripCounter }

/-! ### Bandwidth filter (`BbrBandwidthFilterOnPacketAcked`, bbr.c:139-218) -/

/-- The send-rate estimate of one acked packet (bbr.c:162-196): `UINT64_MAX` is
the source's sentinel for "no valid rate".  Both `TotalBytesSent` differences
are guarded by debug assertions, hence truncated subtraction. -/
def sendRateOf (ack : QUIC_ACK_EVENT) (p : QUIC_SENT_PACKET_METADATA) : Nat :=
  if p.HasLastAckedPacketInfo then
    let SendElapsed := CxPlatTimeDiff64 p.LastAckedPacketInfo.SentTime p.SentTime
    if SendElapsed ≠ 0 then
      kMicroSecsInSec * BW_UNIT * (p.TotalBytesSent - p.LastAckedPacketInfo.TotalBytesSent)
        % two64 / SendElapsed
    else UINT64_MAX
  else if ¬CxPlatTimeAtOrBefore64 ack.TimeNow p.SentTime then
    kMicroSecsInSec * BW_UNIT * ack.NumTotalAckedRetransmittableBytes % two64 /
      CxPlatTimeDiff64 p.SentTime ack.TimeNow
  else UINT64_MAX

/-- The ack-rate estimate of one acked packet (bbr.c:179-190), with the
source's fallback from the adjusted-ack-time difference to the raw ack-time
difference; `UINT64_MAX` is the sentinel for "no valid rate". -/
def ackRateOf (ack : QUIC_ACK_EVENT) (p : QUIC_SENT_PACKET_METADATA) : Nat :=
  if p.HasLastAckedPacketInfo then
    let AckElapsed :=
      if ¬CxPlatTimeAtOrBefore64 ack.AdjustedAckTime p.LastAckedPacketInfo.AdjustedAckTime then
        CxPlatTimeDiff64 p.LastAckedPacketInfo.AdjustedAckTime ack.AdjustedAckTime
      else
        CxPlatTimeDiff64 p.LastAckedPacketInfo.AckTime ack.TimeNow
    if AckElapsed ≠ 0 then
      kMicroSecsInSec * BW_UNIT *
          (ack.NumTotalAckedRetransmittableBytes - p.LastAckedPacketInfo.TotalBytesAcked)
        % two64 / AckElapsed
    else UINT64_MAX
  else UINT64_MAX

/-- The delivery rate of one acked packet: `min(SendRate, AckRate)` (bbr.c:202). -/
def deliveryRateOf (ack : QUIC_ACK_EVENT) (p : QUIC_SENT_PACKET_METADATA) : Nat :=
  min (sendRateOf ack p) (ackRateOf ack p)

/-- The current maximum of a windowed-max filter, 0 when empty (bbr.c:204-210). -/
def previousMaxDeliveryRate (w : QUIC_SLIDING_WINDOW_EXTREMUM) : Nat :=
  match QuicSlidingWindowExtremumGet w with
  | some e => e.Value
  | none => 0

/-- The body of the acked-packets loop of `BbrBandwidthFilterOnPacketAcked`
(bbr.c:154-217) for a single packet, acting on the windowed-max filter. -/
def bandwidthFilterPacketStep (ack : QUIC_ACK_EVENT) (RttCounter : Nat)
    (w : QUIC_SLIDING_WINDOW_EXTREMUM) (p : QUIC_SENT_PACKET_METADATA) :
    QUIC_SLIDING_WINDOW_EXTREMUM :=
  if p.PacketLength = 0 then w
  else if sendRateOf ack p = UINT64_MAX ∧ ackRateOf ack p = UINT64_MAX then w
  else if previousMaxDeliveryRate w ≤ deliveryRateOf ack p ∨ p.IsAppLimited = false then
    QuicSlidingWindowExtremumUpdateMax w (deliveryRateOf ack p) RttCounter
  else w

/-- `BbrBandwidthFilterOnPacketAcked` (bbr.c:139-218). -/
def BbrBandwidthFilterOnPacketAcked (b : BBR_BANDWIDTH_FILTER) (ack : QUIC_ACK_EVENT)
    (RttCounter : Nat) : BBR_BANDWIDTH_FILTER :=
  let b :=
    if b.AppLimited ∧ b.AppLimitedExitTarget < ack.LargestAck then
      { b with AppLimited := false }
    else b
  { b with WindowedMaxFilter :=
      ack.AckedPackets.foldl (bandwidthFilterPacketStep ack RttCounter) b.WindowedMaxFilter }

/-! ### External events of `bbr.c` -/

/-- `BbrCongestionControlOnDataSent` (bbr.c:451-491); the blocked-state report
and logging touch only the connection, not the BBR state. -/
def BbrCongestionControlOnDataSent (s : QUIC_CONGESTION_CONTROL_BBR)
    (NumRetransmittableBytes : Nat) : QUIC_CONGESTION_CONTROL_BBR :=
  let s :=
    if s.BytesInFlight = 0 ∧ BbrCongestionControlIsAppLimited s then
      { s with ExitingQuiescence := true }
    else s
  let s := { s with BytesInFlight := (s.BytesInFlight + NumRetransmittableBytes) % two32 }
  let s :=
    if s.BytesInFlightMax < s.BytesInFlight then
      { s with BytesInFlightMax := s.BytesInFlight }
    else s
  if 0 < s.Exemptions then { s with Exemptions := s.Exemptions - 1 } else s

/-- `BbrCongestionControlOnDataInvalidated` (bbr.c:555-570); the subtraction is
guarded by the assertion `BytesInFlight >= NumRetransmittableBytes`. -/
def BbrCongestionControlOnDataInvalidated (s : QUIC_CONGESTION_CONTROL_BBR)
    (NumRetransmittableBytes : Nat) : QUIC_CONGESTION_CONTROL_BBR :=
  { s with BytesInFlight := s.BytesInFlight - NumRetransmittableBytes }

/-- `BbrCongestionControlOnDataLost` (bbr.c:1132-1253).  The in-flight
subtraction is assertion-guarded; the deflation subtraction and the sum
`NumRetransmittableBytes + MinCongestionWindow` are wrapping `uint32_t`
arithmetic. -/
def BbrCongestionControlOnDataLost (env : BbrEnv) (s : QUIC_CONGESTION_CONTROL_BBR)
    (L : QUIC_LOSS_EVENT) : QUIC_CONGESTION_CONTROL_BBR :=
  let s := { s with EndOfRecoveryValid := true,
                    EndOfRecovery := L.LargestSentPacketNumber,
                    BytesInFlight := s.BytesInFlight - L.NumRetransmittableBytes }
  let MinCongestionWindow := kMinCwndInMss * env.DatagramPayloadLength
  let RecoveryWindow :=
    if ¬BbrCongestionControlInRecovery s then max s.BytesInFlight MinCongestionWindow
    else s.RecoveryWindow
  let s :=
    if ¬BbrCongestionControlInRecovery s then
      { s with RecoveryState := RECOVERY_STATE.CONSERVATIVE,
               EndOfRoundTripValid := true,
               EndOfRoundTrip := L.LargestSentPacketNumber }
    else s
  if L.PersistentCongestion then
    { s with RecoveryWindow := MinCongestionWindow }
  else
    { s with RecoveryWindow :=
        if (L.NumRetransmittableBytes + MinCongestionWindow) % two32 < RecoveryWindow then
          u32sub RecoveryWindow L.NumRetransmittableBytes
        else MinCongestionWindow }

/-- `BbrCongestionControlOnSpuriousCongestionEvent` (bbr.c:1255-1263): no state
change. -/
def BbrCongestionControlOnSpuriousCongestionEvent (s : QUIC_CONGESTION_CONTROL_BBR) :
    QUIC_CONGESTION_CONTROL_BBR :=
  s

/-- `BbrCongestionControlSetAppLimited` (bbr.c:1265-1282); `LargestSentPacketNumber`
is read from the connection's loss-detection state. -/
def BbrCongestionControlSetAppLimited (env : BbrEnv) (s : QUIC_CONGESTION_CONTROL_BBR)
    (LargestSentPacketNumber : Nat) : QUIC_CONGESTION_CONTROL_BBR :=
  if BbrCongestionControlGetCongestionWindow env s < s.BytesInFlight then
    s
  else
    { s with BandwidthFilter := { s.BandwidthFilter with
        AppLimited := true, AppLimitedExitTarget := LargestSentPacketNumber } }

/-- `BbrCongestionControlSetExemption` (bbr.c:441-449). -/
def BbrCongestionControlSetExemption (s : QUIC_CONGESTION_CONTROL_BBR) (NumPackets : Nat) :
    QUIC_CONGESTION_CONTROL_BBR :=
  { s with Exemptions := NumPackets % two8 }

/-- `BbrCongestionControlReset` (bbr.c:1284-1355).  `now` stands for the
`CxPlatTimeUs64()` readings; the initial-window product is `uint32_t`. -/
def BbrCongestionControlReset (env : BbrEnv) (s : QUIC_CONGESTION_CONTROL_BBR)
    (FullReset : Bool) (now : Nat) : QUIC_CONGESTION_CONTROL_BBR :=
  let cwnd := s.InitialCongestionWindowPackets * env.DatagramPayloadLength % two32
  { BytesInFlight := if FullReset then 0 else s.BytesInFlight
    BytesInFlightMax := cwnd / 2
    Exemptions := 0
    CongestionWindow := cwnd
    InitialCongestionWindow := cwnd
    InitialCongestionWindowPackets := s.InitialCongestionWindowPackets
    RecoveryWindow := kDefaultRecoveryCwndInMss * env.DatagramPayloadLength % two32
    RecoveryState := RECOVERY_STATE.NOT_RECOVERY
    BbrState := BBR_STATE.STARTUP
    RoundTripCounter := 0
    CwndGain := kHighGain
    PacingGain := kHighGain
    BtlbwFound := false
    SendQuantum := 0
    SlowStartupRoundCounter := 0
    PacingCycleIndex := 0
    AggregatedAckBytes := 0
    ExitingQuiescence := false
    LastEstimatedStartupBandwidth := 0
    CycleStart := 0
    AckAggregationStartTime := now
    AckAggregationStartTimeValid := false
    EndOfRecovery := 0
    EndOfRecoveryValid := false
    ProbeRttRound := 0
    ProbeRttRoundValid := false
    EndOfRoundTrip := 0
    EndOfRoundTripValid := false
    ProbeRttEndTime := now
    ProbeRttEndTimeValid := false
    RttSampleExpired := true
    MinRttTimestampValid := false
    MinRtt := UINT64_MAX
    MinRttTimestamp := 0
    MaxAckHeightFilter := QuicSlidingWindowExtremumReset s.MaxAckHeightFilter
    BandwidthFilter :=
      { WindowedMaxFilter := QuicSlidingWindowExtremumReset s.BandwidthFilter.WindowedMaxFilter
        AppLimited := false
        AppLimitedExitTarget := 0 } }

/-- `BbrCongestionControlInitialize` (bbr.c:1379-1473), as a state constructor
(the vtable assignment and logging have no state effect).  `now` stands for the
`CxPlatTimeUs64()` reading; the initial-window product is `uint32_t`. -/
def BbrCongestionControlInitState (env : BbrEnv) (InitialWindowPackets now : Nat) :
    QUIC_CONGESTION_CONTROL_BBR :=
  let cwnd := InitialWindowPackets * env.DatagramPayloadLength % two32
  { BytesInFlight := 0
    BytesInFlightMax := cwnd / 2
    Exemptions := 0
    CongestionWindow := cwnd
    InitialCongestionWindow := cwnd
    InitialCongestionWindowPackets := InitialWindowPackets
    RecoveryWindow := kDefaultRecoveryCwndInMss * env.DatagramPayloadLength % two32
    RecoveryState := RECOVERY_STATE.NOT_RECOVERY
    BbrState := BBR_STATE.STARTUP
    RoundTripCounter := 0
    CwndGain := kHighGain
    PacingGain := kHighGain
    BtlbwFound := false
    SendQuantum := 0
    SlowStartupRoundCounter := 0
    PacingCycleIndex := 0
    AggregatedAckBytes := 0
    ExitingQuiescence := false
    LastEstimatedStartupBandwidth := 0
    CycleStart := 0
    AckAggregationStartTime := now
    AckAggregationStartTimeValid := false
    EndOfRecovery := 0
    EndOfRecoveryValid := false
    ProbeRttRound := 0
    ProbeRttRoundValid := false
    EndOfRoundTrip := 0
    EndOfRoundTripValid := false
    ProbeRttEndTime := 0
    ProbeRttEndTimeValid := false
    RttSampleExpired := true
    MinRttTimestampValid := false
    MinRtt := UINT64_MAX
    MinRttTimestamp := 0
    MaxAckHeightFilter :=
      QuicSlidingWindowExtremumInit kBbrMaxAckHeightFilterLen kBbrDefaultFilterCapacity
    BandwidthFilter :=
      { WindowedMaxFilter :=
          QuicSlidingWindowExtremumInit kBbrMaxBandwidthFilterLen kBbrDefaultFilterCapacity
        AppLimited := false
        AppLimitedExitTarget := 0 } }

/-! ### `BbrCongestionControlOnDataAcknowledged` (bbr.c:863-1130), split into the
stages of the source in their exact order. -/

/-- Min-RTT update on ack (bbr.c:890-899). -/
def ackMinRtt (s : QUIC_CONGESTION_CONTROL_BBR) (ack : QUIC_ACK_EVENT) :
    QUIC_CONGESTION_CONTROL_BBR :=
  if ack.MinRttValid then
    let expired :=
      if s.MinRttTimestampValid then
        CxPlatTimeAtOrBefore64 ((s.MinRttTimestamp + kBbrMinRttExpirationInMicroSecs) % two64)
          ack.TimeNow
      else false
    let s := { s with RttSampleExpired := expired }
    if expired ∨ ack.MinRtt < s.MinRtt then
      { s with MinRtt := ack.MinRtt, MinRttTimestamp := ack.TimeNow,
               MinRttTimestampValid := true }
    else s
  else s

/-- The new-round-trip test of bbr.c:901-902, on the state before the round
update. -/
def ackNewRoundTrip (s : QUIC_CONGESTION_CONTROL_BBR) (ack : QUIC_ACK_EVENT) : Bool :=
  ¬s.EndOfRoundTripValid ∨ s.EndOfRoundTrip < ack.LargestAck

/-- Round-trip counting on ack (bbr.c:901-907). -/
def ackRoundTrip (s : QUIC_CONGESTION_CONTROL_BBR) (ack : QUIC_ACK_EVENT) :
    QUIC_CONGESTION_CONTROL_BBR :=
  if ackNewRoundTrip s ack then
    { s with RoundTripCounter := (s.RoundTripCounter + 1) % two64,
             EndOfRoundTripValid := true,
             EndOfRoundTrip := ack.LargestSentPacketNumber }
  else s

/-- Recovery bookkeeping on ack (bbr.c:977-991). -/
def ackRecovery (env : BbrEnv) (s : QUIC_CONGESTION_CONTROL_BBR) (ack : QUIC_ACK_EVENT)
    (NewRoundTrip : Bool) : QUIC_CONGESTION_CONTROL_BBR :=
  if BbrCongestionControlInRecovery s then
    let s :=
      if NewRoundTrip ∧ s.RecoveryState ≠ RECOVERY_STATE.GROWTH then
        { s with RecoveryState := RECOVERY_STATE.GROWTH }
      else s
    if ¬ack.HasLoss ∧ s.EndOfRecovery < ack.LargestAck then
      { s with RecoveryState := RECOVERY_STATE.NOT_RECOVERY }
    else
      BbrCongestionControlUpdateRecoveryWindow env s ack.NumRetransmittableBytes
  else s

/-- ProbeBW pacing-gain cycling on ack (bbr.c:995-1015).  Note the source passes
`(TimeNow, CycleStart)` to `CxPlatTimeDiff64` in that order. -/
def ackProbeBwCycle (s : QUIC_CONGESTION_CONTROL_BBR) (ack : QUIC_ACK_EVENT)
    (PrevInflightBytes : Nat) : QUIC_CONGESTION_CONTROL_BBR :=
  if s.BbrState = BBR_STATE.PROBE_BW then
    let should := s.MinRtt < CxPlatTimeDiff64 ack.TimeNow s.CycleStart
    let should :=
      if GAIN_UNIT < s.PacingGain ∧ ¬ack.HasLoss ∧
          PrevInflightBytes < BbrCongestionControlGetTargetCwnd s s.PacingGain then
        false
      else should
    let should :=
      if s.PacingGain < GAIN_UNIT ∧
          s.BytesInFlight ≤ BbrCongestionControlGetTargetCwnd s GAIN_UNIT then
        true
      else should
    if should then
      let idx := (s.PacingCycleIndex + 1) % GAIN_CYCLE_LENGTH
      { s with PacingCycleIndex := idx,
               CycleStart := ack.TimeNow,
               PacingGain := kPacingGain.getD idx 0 }
    else s
  else s

/-- Startup-exit (bottleneck-bandwidth-found) detection on ack (bbr.c:1017-1027).
`SlowStartupRoundCounter` is a `uint8_t`. -/
def ackStartupDetect (s : QUIC_CONGESTION_CONTROL_BBR)
    (NewRoundTrip LastAckedPacketAppLimited : Bool) : QUIC_CONGESTION_CONTROL_BBR :=
  if ¬s.BtlbwFound ∧ NewRoundTrip ∧ ¬LastAckedPacketAppLimited then
    let BandwidthTarget := s.LastEstimatedStartupBandwidth * kStartupGrowthTarget % two64 / GAIN_UNIT
    let CurrentBandwidth := BbrCongestionControlGetBandwidth s
    if BandwidthTarget ≤ CurrentBandwidth then
      { s with LastEstimatedStartupBandwidth := CurrentBandwidth,
               SlowStartupRoundCounter := 0 }
    else
      let c := (s.SlowStartupRoundCounter + 1) % two8
      if kStartupSlowGrowRoundLimit ≤ c then
        { s with SlowStartupRoundCounter := c, BtlbwFound := true }
      else
        { s with SlowStartupRoundCounter := c }
  else s

/-- The in-flight subtraction at bbr.c:885-888 (assertion-guarded). -/
def ackSubInflight (s : QUIC_CONGESTION_CONTROL_BBR) (n : Nat) :
    QUIC_CONGESTION_CONTROL_BBR :=
  { s with BytesInFlight := s.BytesInFlight - n }

/-- The bandwidth-filter update at bbr.c:912. -/
def ackBandwidthUpdate (s : QUIC_CONGESTION_CONTROL_BBR) (ack : QUIC_ACK_EVENT) :
    QUIC_CONGESTION_CONTROL_BBR :=
  { s with BandwidthFilter :=
      BbrBandwidthFilterOnPacketAcked s.BandwidthFilter ack s.RoundTripCounter }

/-- The Startup-to-Drain transition check at bbr.c:1029-1031. -/
def ackDrainTransit (s : QUIC_CONGESTION_CONTROL_BBR) : QUIC_CONGESTION_CONTROL_BBR :=
  if s.BbrState = BBR_STATE.STARTUP ∧ s.BtlbwFound then
    BbrCongestionControlTransitToDrain s
  else s

/-- The Drain-to-ProbeBW transition check at bbr.c:1033-1036. -/
def ackProbeBwTransit (s : QUIC_CONGESTION_CONTROL_BBR) (time rnd : Nat) :
    QUIC_CONGESTION_CONTROL_BBR :=
  if s.BbrState = BBR_STATE.DRAIN ∧
      s.BytesInFlight ≤ BbrCongestionControlGetTargetCwnd s GAIN_UNIT then
    BbrCongestionControlTransitToProbeBw s time rnd
  else s

/-- The ProbeRTT trigger check at bbr.c:1038-1042. -/
def ackProbeRttTransit (s : QUIC_CONGESTION_CONTROL_BBR) (LargestSentPacketNumber : Nat) :
    QUIC_CONGESTION_CONTROL_BBR :=
  if s.BbrState ≠ BBR_STATE.PROBE_RTT ∧ ¬s.ExitingQuiescence ∧ s.RttSampleExpired then
    BbrCongestionControlTransitToProbeRtt s LargestSentPacketNumber
  else s

/-- The quiescence-exit clear at bbr.c:1044. -/
def ackClearQuiescence (s : QUIC_CONGESTION_CONTROL_BBR) : QUIC_CONGESTION_CONTROL_BBR :=
  { s with ExitingQuiescence := false }

/-- The ProbeRTT ack-handling dispatch at bbr.c:1046-1049. -/
def ackProbeRttHandle (env : BbrEnv) (s : QUIC_CONGESTION_CONTROL_BBR)
    (NewRoundTrip : Bool) (LargestSentPacketNumber AckTime rnd : Nat) :
    QUIC_CONGESTION_CONTROL_BBR :=
  if s.BbrState = BBR_STATE.PROBE_RTT then
    BbrCongestionControlHandleAckInProbeRtt env s NewRoundTrip
      LargestSentPacketNumber AckTime rnd
  else s

/-- `BbrCongestionControlOnDataAcknowledged` (bbr.c:863-1130), as the
composition of the stages above in the source's order.  `rnd1` models the
random value consumed if the Drain-to-ProbeBW transition fires, `rnd2` the one
consumed if ProbeRTT exits to ProbeBW; the two cannot both fire in one call. -/
def BbrCongestionControlOnDataAcknowledged (env : BbrEnv)
    (s : QUIC_CONGESTION_CONTROL_BBR) (ack : QUIC_ACK_EVENT) (rnd1 rnd2 : Nat) :
    QUIC_CONGESTION_CONTROL_BBR :=
  if ack.IsImplicit then
    BbrCongestionControlUpdateCongestionWindow env s
      ack.NumTotalAckedRetransmittableBytes ack.NumRetransmittableBytes
  else
    let PrevInflightBytes := s.BytesInFlight
    let s1 := ackSubInflight s ack.NumRetransmittableBytes
    let s2 := ackMinRtt s1 ack
    let NewRoundTrip := ackNewRoundTrip s2 ack
    let s3 := ackRoundTrip s2 ack
    let LastAckedPacketAppLimited :=
      if ack.AckedPackets.isEmpty then false else ack.IsLargestAckedPacketAppLimited
    let s4 := ackBandwidthUpdate s3 ack
    let s5 := ackRecovery env s4 ack NewRoundTrip
    let s6 := BbrCongestionControlUpdateAckAggregation s5 ack
    let s7 := ackProbeBwCycle s6 ack PrevInflightBytes
    let s8 := ackStartupDetect s7 NewRoundTrip LastAckedPacketAppLimited
    let s9 := ackDrainTransit s8
    let s10 := ackProbeBwTransit s9 ack.TimeNow rnd1
    let s11 := ackProbeRttTransit s10 ack.LargestSentPacketNumber
    let s12 := ackClearQuiescence s11
    let s13 := ackProbeRttHandle env s12 NewRoundTrip ack.LargestSentPacketNumber
      ack.TimeNow rnd2
    BbrCongestionControlUpdateCongestionWindow env s13
      ack.NumTotalAckedRetransmittableBytes ack.NumRetransmittableBytes

/-! ### Event sequences -/

/-- An external event delivered to the controller; random values consumed by
ProbeBW entry and clock readings consumed by `Reset` are carried as oracle
inputs of the event. -/
inductive BbrEvent where
  | dataSent (bytes : Nat)
  | dataInvalidated (bytes : Nat)
  | dataAcked (ack : QUIC_ACK_EVENT) (rnd1 rnd2 : Nat)
  | dataLost (loss : QUIC_LOSS_EVENT)
  | spuriousCongestion
  | setAppLimited (largestSent : Nat)
  | setExemption (n : Nat)
  | reset (full : Bool) (now : Nat)
  deriving Repr

/-- Dispatch of one external event, mirroring the operation table of bbr.c. -/
def bbrStep (env : BbrEnv) (s : QUIC_CONGESTION_CONTROL_BBR) :
    BbrEvent → QUIC_CONGESTION_CONTROL_BBR
  | BbrEvent.dataSent bytes => BbrCongestionControlOnDataSent s bytes
  | BbrEvent.dataInvalidated bytes => BbrCongestionControlOnDataInvalidated s bytes
  | BbrEvent.dataAcked ack rnd1 rnd2 =>
      BbrCongestionControlOnDataAcknowledged env s ack rnd1 rnd2
  | BbrEvent.dataLost loss => BbrCongestionControlOnDataLost env s loss
  | BbrEvent.spuriousCongestion => BbrCongestionControlOnSpuriousCongestionEvent s
  | BbrEvent.setAppLimited largestSent => BbrCongestionControlSetAppLimited env s largestSent
  | BbrEvent.setExemption n => BbrCongestionControlSetExemption s n
  | BbrEvent.reset full now => BbrCongestionControlReset env s full now

/-- Run a sequence of external events from a state. -/
def bbrRun (env : BbrEnv) (s : QUIC_CONGESTION_CONTROL_BBR)
    (events : List BbrEvent) : QUIC_CONGESTION_CONTROL_BBR :=
  events.foldl (bbrStep env) s

/-! ### Scalar Kalman filter (`src/core/kalman_filter.c`), doubles as rationals -/

structure QUIC_KALMAN_FILTER where
  State : ℚ
  Covariance : ℚ
  ProcessNoise : ℚ
  MeasurementNoise : ℚ
  Initialized : Bool
  deriving DecidableEq

/-- `QuicKalmanFilterReset` (kalman_filter.c:20-29). -/
def QuicKalmanFilterReset (f : QUIC_KALMAN_FILTER) : QUIC_KALMAN_FILTER :=
  { f with State := 0, Covariance := 1, Initialized := false }

/-- `QuicKalmanFilterGetEstimate` (kalman_filter.c:31-41). -/
def QuicKalmanFilterGetEstimate (f : QUIC_KALMAN_FILTER) : ℚ :=
  if f.Initialized = false then 0 else f.State

/-- `QuicKalmanFilterUpdate` (kalman_filter.c:43-68). -/
def QuicKalmanFilterUpdate (f : QUIC_KALMAN_FILTER) (Measurement : ℚ) : QUIC_KALMAN_FILTER :=
  if f.Initialized = false then
    { f with State := Measurement, Covariance := f.MeasurementNoise, Initialized := true }
  else
    let PredictedCovariance := f.Covariance + f.ProcessNoise
    let KalmanGain := PredictedCovariance / (PredictedCovariance + f.MeasurementNoise)
    let Covariance := (1 - KalmanGain) * PredictedCovariance
    { f with State := f.State + KalmanGain * (Measurement - f.State),
             Covariance := if Covariance < 1 / 1000000000 then 1 / 1000000000 else Covariance }

/-- `QuicKalmanFilterPredict` (kalman_filter.c:70-80). -/
def QuicKalmanFilterPredict (f : QUIC_KALMAN_FILTER) : QUIC_KALMAN_FILTER :=
  if f.Initialized = false then f
  else { f with Covariance := f.Covariance + f.ProcessNoise }

/-! ### Concrete instances used by the evaluation and witness theorems -/

/-- A connection environment: 1200-byte datagram payload, pacing enabled, and
a 1000 microsecond `QUIC_SEND_PACING_INTERVAL`. -/
def env1 : BbrEnv :=
  { DatagramPayloadLength := 1200, PacingEnabled := true, SendPacingInterval := 1000 }

/-- The state right after `Initialize` with `InitialWindowPackets = 10` on `env1`. -/
def sInit1 : QUIC_CONGESTION_CONTROL_BBR := BbrCongestionControlInitState env1 10 0

/-- A bandwidth filter holding the single sample `v`. -/
def bwFilterWith (v : Nat) : BBR_BANDWIDTH_FILTER :=
  { sInit1.BandwidthFilter with WindowedMaxFilter :=
      QuicSlidingWindowExtremumUpdateMax sInit1.BandwidthFilter.WindowedMaxFilter v 1 }

/-- A fresh state that has a bandwidth sample (800) but still no RTT sample. -/
def s2 : QUIC_CONGESTION_CONTROL_BBR := { sInit1 with BandwidthFilter := bwFilterWith 800 }

/-- A fresh state with 11000 bytes in flight (for the loss-event counterexample). -/
def s5 : QUIC_CONGESTION_CONTROL_BBR := { sInit1 with BytesInFlight := 11000 }

/-- A loss event: largest sent 42, 1000 lost bytes, no persistent congestion. -/
def loss5 : QUIC_LOSS_EVENT :=
  { LargestSentPacketNumber := 42, NumRetransmittableBytes := 1000,
    PersistentCongestion := false }

/-- A fresh state with 20000 bytes in flight (for the loss-event witness). -/
def s5w : QUIC_CONGESTION_CONTROL_BBR := { sInit1 with BytesInFlight := 20000 }

/-- A loss event: largest sent 7, 500 lost bytes, no persistent congestion. -/
def lossW : QUIC_LOSS_EVENT :=
  { LargestSentPacketNumber := 7, NumRetransmittableBytes := 500,
    PersistentCongestion := false }

/-- A state whose pacing rate lands in the high-rate send-quantum branch:
bandwidth sample 192000000 with pacing gain `GAIN_UNIT`. -/
def s6 : QUIC_CONGESTION_CONTROL_BBR :=
  { sInit1 with BandwidthFilter := bwFilterWith 192000000, PacingGain := GAIN_UNIT }

/-- A congestion-blocked fresh state: 20000 bytes in flight against a 12000-byte
congestion window. -/
def sBlocked : QUIC_CONGESTION_CONTROL_BBR := { sInit1 with BytesInFlight := 20000 }

/-- An uninitialised Kalman filter with covariance 1 and process noise 1. -/
def kf0 : QUIC_KALMAN_FILTER :=
  { State := 0, Covariance := 1, ProcessNoise := 1, MeasurementNoise := 1,
    Initialized := false }

/-- An implicit ack event (packet-number-space discard). -/
def ackImplicit : QUIC_ACK_EVENT :=
  { TimeNow := 50, LargestAck := 3, LargestSentPacketNumber := 5,
    NumRetransmittableBytes := 100, NumTotalAckedRetransmittableBytes := 500,
    IsImplicit := true, HasLoss := false, IsLargestAckedPacketAppLimited := false,
    MinRttValid := false, MinRtt := 0, AdjustedAckTime := 50, AckedPackets := [] }

/-- An acked packet with last-acked info, for the bandwidth-filter witness. -/
def pktW : QUIC_SENT_PACKET_METADATA :=
  { PacketLength := 1200, SentTime := 1000, TotalBytesSent := 5000,
    HasLastAckedPacketInfo := true,
    LastAckedPacketInfo :=
      { SentTime := 500, AckTime := 900, AdjustedAckTime := 880,
        TotalBytesSent := 2000, TotalBytesAcked := 1500 },
    IsAppLimited := false }

/-- A non-implicit ack event carrying `pktW`. -/
def ackW : QUIC_ACK_EVENT :=
  { TimeNow := 2000, LargestAck := 9, LargestSentPacketNumber := 12,
    NumRetransmittableBytes := 1200, NumTotalAckedRetransmittableBytes := 3600,
    IsImplicit := false, HasLoss := false, IsLargestAckedPacketAppLimited := false,
    MinRttValid := true, MinRtt := 100, AdjustedAckTime := 1980, AckedPackets := [pktW] }

/-- An empty windowed-max filter with the bandwidth filter's parameters. -/
def wW : QUIC_SLIDING_WINDOW_EXTREMUM :=
  QuicSlidingWindowExtremumInit kBbrMaxBandwidthFilterLen kBbrDefaultFilterCapacity

/-- The loss-event byte counts under which the recovery-window deflation of
`BbrCongestionControlOnDataLost` cannot wrap in `uint32_t`: on any other event
the condition is vacuous. -/
def lossBytesOk (env : BbrEnv) : BbrEvent → Bool
  | BbrEvent.dataLost l =>
      decide (l.NumRetransmittableBytes + kMinCwndInMss * env.DatagramPayloadLength < two32)
  | _ => true

/-- The inductive invariant behind the minimum-congestion-window property: the
stored settings value reproduces a window at or above the minimum window on
`Reset`, both windows are at or above the minimum window, and `BytesInFlight`
and `RecoveryWindow` respect the bounds their `uint32_t` type gives them. -/
def BbrMinCwndInv (env : BbrEnv) (s : QUIC_CONGESTION_CONTROL_BBR) : Prop :=
  kMinCwndInMss * env.DatagramPayloadLength ≤
    s.InitialCongestionWindowPackets * env.DatagramPayloadLength % two32 ∧
  kMinCwndInMss * env.DatagramPayloadLength ≤ s.CongestionWindow ∧
  kMinCwndInMss * env.DatagramPayloadLength ≤ s.RecoveryWindow ∧
  s.BytesInFlight < two32 ∧
  s.RecoveryWindow < two32

/-- A short event sequence used by the minimum-congestion-window witness. -/
def eventsW : List BbrEvent :=
  [BbrEvent.dataSent 5000,
   BbrEvent.dataLost { LargestSentPacketNumber := 1, NumRetransmittableBytes := 1000,
                       PersistentCongestion := false },
   BbrEvent.dataAcked ackW 7 9,
   BbrEvent.reset true 99]

/-! ### Theorems -/

/-- C4: `GetCongestionWindow` is a pure function of the state: in ProbeRTT it
returns the minimum congestion window regardless of the stored window and of
the recovery state; otherwise, when the recovery state is not NotRecovery, it
returns the minimum of the congestion window and the recovery window; otherwise
it returns the congestion window. -/
theorem C4_congestion_window_cases (env : BbrEnv) (s : QUIC_CONGESTION_CONTROL_BBR) :
    BbrCongestionControlGetCongestionWindow env s =
      if s.BbrState = BBR_STATE.PROBE_RTT then
        kMinCwndInMss * env.DatagramPayloadLength
      else if s.RecoveryState ≠ RECOVERY_STATE.NOT_RECOVERY then
        min s.CongestionWindow s.RecoveryWindow
      else
        s.CongestionWindow := by
  simp [BbrCongestionControlGetCongestionWindow, BbrCongestionControlInRecovery]

/-- C9 counterexample: on an uninitialised filter with process noise 1 and
covariance 1, `predict()` leaves the covariance at 1 instead of adding the
process noise as the claim states for every filter state. -/
theorem C9_predict_uninitialised_counterexample :
    (QuicKalmanFilterPredict kf0).Covariance ≠ kf0.Covariance + kf0.ProcessNoise := by
  simp only [QuicKalmanFilterPredict, kf0]
  norm_num

/-- C9 (amended): `predict()` adds the process noise to the covariance and
changes nothing else when the filter is initialised, and changes nothing at all
when the filter is uninitialised. -/
theorem C9_predict_adds_process_noise (f : QUIC_KALMAN_FILTER) :
    QuicKalmanFilterPredict f =
      if f.Initialized then { f with Covariance := f.Covariance + f.ProcessNoise }
      else f := by
  unfold QuicKalmanFilterPredict
  cases h : f.Initialized <;> simp [h]

/-- C6 counterexample: with a bandwidth sample of 192000000 and pacing gain
`GAIN_UNIT`, the pacing rate is at the high threshold `24 MB/s * BW_UNIT`; the
code stores a send quantum of 65536 while the claim's formula
`min(pacing_rate * 1 ms / BW_UNIT, 64 KiB)` read as a division by 1000 yields
24000. -/
theorem C6_send_quantum_counterexample :
    kHighPacingRateThresholdBytesPerSecond * BW_UNIT ≤
      BbrCongestionControlGetBandwidth s6 * s6.PacingGain / GAIN_UNIT ∧
    (BbrCongestionControlSetSendQuantum env1 s6).SendQuantum = 65536 ∧
    min (BbrCongestionControlGetBandwidth s6 * s6.PacingGain / GAIN_UNIT /
        kMilliSecsInSec / BW_UNIT) (64 * 1024) = 24000 ∧
    (65536 : Nat) ≠ 24000 := by
  decide

/-- C6 (amended): whenever the send quantum is recomputed, with
`pacing_rate = bandwidth * pacing_gain / GAIN_UNIT`: below `1.2 MB/s * BW_UNIT`
the quantum is one datagram payload; below `24 MB/s * BW_UNIT` it is two
payloads; otherwise it is `min(pacing_rate * kMilliSecsInSec / BW_UNIT, 64 KiB)`
(the source multiplies the BW_UNIT-scaled per-second rate by 1000 rather than
dividing it by 1000). -/
theorem C6_send_quantum_cases (env : BbrEnv) (s : QUIC_CONGESTION_CONTROL_BBR) :
    (BbrCongestionControlSetSendQuantum env s).SendQuantum =
      if BbrCongestionControlGetBandwidth s * s.PacingGain % two64 / GAIN_UNIT <
          kLowPacingRateThresholdBytesPerSecond * BW_UNIT then
        env.DatagramPayloadLength
      else if BbrCongestionControlGetBandwidth s * s.PacingGain % two64 / GAIN_UNIT <
          kHighPacingRateThresholdBytesPerSecond * BW_UNIT then
        env.DatagramPayloadLength * 2
      else
        min (BbrCongestionControlGetBandwidth s * s.PacingGain % two64 / GAIN_UNIT *
          kMilliSecsInSec % two64 / BW_UNIT) (64 * 1024) := by
  rfl

/-- C1: on the fresh state (minimum RTT unset, i.e. `MinRtt = UINT64_MAX`, and
pacing enabled) with a valid time-since-last-send, `GetSendAllowance` returns
3000 = cwnd/4 instead of `cwnd - bytes_in_flight = 12000`: the claim's
"min_rtt unset implies no pacing" branch never fires because the code compares
`MinRtt` against `UINT32_MAX` while the unset sentinel written by
Initialize/Reset is `UINT64_MAX`. -/
theorem C1_send_allowance_unset_min_rtt_eval :
    sInit1.MinRtt = UINT64_MAX ∧
    env1.PacingEnabled = true ∧
    sInit1.BytesInFlight <
      BbrCongestionControlGetCongestionWindow env1 sInit1 ∧
    BbrCongestionControlGetCongestionWindow env1 sInit1 - sInit1.BytesInFlight = 12000 ∧
    BbrCongestionControlGetSendAllowance env1 sInit1 100000 true = 3000 := by
  decide

/-- C2: on a state with a non-zero bandwidth sample (800) and the minimum RTT
still unset (`MinRtt = UINT64_MAX`), `GetTargetCwnd(GAIN_UNIT)` returns
3740538557 - the wrapped product `800 * UINT64_MAX` fed into the BDP formula -
instead of `gain * initial_cwnd / GAIN_UNIT = 12000`: the unset test compares
against `UINT32_MAX` while the sentinel is `UINT64_MAX`. -/
theorem C2_target_cwnd_unset_min_rtt_eval :
    BbrCongestionControlGetBandwidth s2 ≠ 0 ∧
    s2.MinRtt = UINT64_MAX ∧
    BbrCongestionControlGetTargetCwnd s2 GAIN_UNIT = 3740538557 ∧
    GAIN_UNIT * s2.InitialCongestionWindow / GAIN_UNIT = 12000 := by
  decide

/-- C3 counterexample: with `initial_window_packets = 0` the state right after
`Initialize` has a zero congestion window, strictly below
`min_cwnd = 4 * datagram_payload_size = 4800`. -/
theorem C3_min_cwnd_counterexample :
    BbrCongestionControlGetCongestionWindow env1 (BbrCongestionControlInitState env1 0 0) = 0 ∧
    0 < kMinCwndInMss * env1.DatagramPayloadLength := by
  decide

/-- C5 counterexample: from NotRecovery with 11000 bytes in flight, a
non-persistent loss of 1000 bytes leaves `recovery_window = 9000`, not
`max(bytes_in_flight, min_cwnd) = max(10000, 4800) = 10000` as the claim
states: the same call also deflates the entry window by the lost bytes. -/
theorem C5_recovery_entry_counterexample :
    s5.RecoveryState = RECOVERY_STATE.NOT_RECOVERY ∧
    (BbrCongestionControlOnDataLost env1 s5 loss5).RecoveryState =
      RECOVERY_STATE.CONSERVATIVE ∧
    (BbrCongestionControlOnDataLost env1 s5 loss5).RecoveryWindow = 9000 ∧
    max (BbrCongestionControlOnDataLost env1 s5 loss5).BytesInFlight
      (kMinCwndInMss * env1.DatagramPayloadLength) = 10000 ∧
    (BbrCongestionControlOnDataLost env1 s5 loss5).RecoveryWindow ≠
      max (BbrCongestionControlOnDataLost env1 s5 loss5).BytesInFlight
        (kMinCwndInMss * env1.DatagramPayloadLength) := by
  decide

/-- C10: for every state and all argument values, `GetSendAllowance` returns 0
when the sender is congestion-blocked, and otherwise returns at most
`GetCongestionWindow() - bytes_in_flight`, so a send of the returned allowance
never pushes the bytes in flight above the congestion window. -/
theorem C10_send_allowance_never_exceeds_window (env : BbrEnv)
    (s : QUIC_CONGESTION_CONTROL_BBR) (t : Nat) (v : Bool) :
    (BbrCongestionControlGetCongestionWindow env s ≤ s.BytesInFlight →
      BbrCongestionControlGetSendAllowance env s t v = 0) ∧
    BbrCongestionControlGetSendAllowance env s t v ≤
      BbrCongestionControlGetCongestionWindow env s - s.BytesInFlight := by
  unfold BbrCongestionControlGetSendAllowance
  dsimp only
  split_ifs <;> omega

/-- C10 witness: on the congestion-blocked state `sBlocked`
(20000 bytes in flight against a 12000-byte window) the allowance is 0. -/
theorem C10_witness :
    BbrCongestionControlGetSendAllowance env1 sBlocked 5 true = 0 :=
  (C10_send_allowance_never_exceeds_window env1 sBlocked 5 true).1 (by decide)

/-- C7: for every acked packet with non-zero length whose delivery rate is
valid, the bandwidth filter inserts `(delivery_rate, round_trip_counter)` into
the windowed-max filter exactly when the rate is at least the filter's current
maximum or the packet is not marked app-limited; in particular an app-limited
sample strictly below the current maximum leaves the filter unchanged. -/
theorem C7_bandwidth_filter_admission (ack : QUIC_ACK_EVENT) (rtt : Nat)
    (w : QUIC_SLIDING_WINDOW_EXTREMUM) (p : QUIC_SENT_PACKET_METADATA)
    (hlen : p.PacketLength ≠ 0)
    (hvalid : ¬(sendRateOf ack p = UINT64_MAX ∧ ackRateOf ack p = UINT64_MAX)) :
    bandwidthFilterPacketStep ack rtt w p =
      if previousMaxDeliveryRate w ≤ deliveryRateOf ack p ∨ p.IsAppLimited = false then
        QuicSlidingWindowExtremumUpdateMax w (deliveryRateOf ack p) rtt
      else w := by
  unfold bandwidthFilterPacketStep
  simp [hlen, hvalid]

/-- C7 witness: the packet `pktW` (1200 bytes, valid rates) fed to the empty
bandwidth filter. -/
theorem C7_witness :
    pktW.PacketLength ≠ 0 ∧
    ¬(sendRateOf ackW pktW = UINT64_MAX ∧ ackRateOf ackW pktW = UINT64_MAX) ∧
    bandwidthFilterPacketStep ackW 3 wW pktW =
      (if previousMaxDeliveryRate wW ≤ deliveryRateOf ackW pktW ∨
          pktW.IsAppLimited = false then
        QuicSlidingWindowExtremumUpdateMax wW (deliveryRateOf ackW pktW) 3
      else wW) :=
  ⟨by decide, by decide, C7_bandwidth_filter_admission ackW 3 wW pktW (by decide) (by decide)⟩

/-- C5 (amended): a loss event without persistent congestion arriving in
NotRecovery sets the Conservative recovery state, records and validates
`end_of_recovery = largest_sent`, pins `end_of_round_trip = largest_sent`, and
sets the recovery window to the entry value `max(bytes_in_flight, min_cwnd)`
deflated by the lost bytes: `max(bytes_in_flight, min_cwnd) - lost` when that
entry value exceeds `lost + min_cwnd`, else `min_cwnd` (bytes in flight
measured after subtracting the lost bytes). -/
theorem C5_recovery_entry (env : BbrEnv) (s : QUIC_CONGESTION_CONTROL_BBR)
    (L : QUIC_LOSS_EVENT)
    (h1 : s.RecoveryState = RECOVERY_STATE.NOT_RECOVERY)
    (h2 : L.PersistentCongestion = false)
    (h3 : L.NumRetransmittableBytes + kMinCwndInMss * env.DatagramPayloadLength < two32)
    (h4 : s.BytesInFlight < two32) :
    (BbrCongestionControlOnDataLost env s L).RecoveryState =
      RECOVERY_STATE.CONSERVATIVE ∧
    (BbrCongestionControlOnDataLost env s L).EndOfRecoveryValid = true ∧
    (BbrCongestionControlOnDataLost env s L).EndOfRecovery =
      L.LargestSentPacketNumber ∧
    (BbrCongestionControlOnDataLost env s L).EndOfRoundTripValid = true ∧
    (BbrCongestionControlOnDataLost env s L).EndOfRoundTrip =
      L.LargestSentPacketNumber ∧
    (BbrCongestionControlOnDataLost env s L).BytesInFlight =
      s.BytesInFlight - L.NumRetransmittableBytes ∧
    (BbrCongestionControlOnDataLost env s L).RecoveryWindow =
      (if L.NumRetransmittableBytes + kMinCwndInMss * env.DatagramPayloadLength <
          max (s.BytesInFlight - L.NumRetransmittableBytes)
            (kMinCwndInMss * env.DatagramPayloadLength) then
        max (s.BytesInFlight - L.NumRetransmittableBytes)
          (kMinCwndInMss * env.DatagramPayloadLength) - L.NumRetransmittableBytes
      else kMinCwndInMss * env.DatagramPayloadLength) := by
  simp [BbrCongestionControlOnDataLost, BbrCongestionControlInRecovery, h1, h2]
  rw [Nat.mod_eq_of_lt h3]
  split_ifs with hA hB hB2
  · rw [sup_eq_left.mpr (show kMinCwndInMss * env.DatagramPayloadLength ≤
        s.BytesInFlight - L.NumRetransmittableBytes by omega)]
    simp only [u32sub, two32] at *
    omega
  · exact absurd hA (by omega)
  · exact absurd hB2 (by omega)
  · rfl

/-- C5 witness: the loss of 500 bytes (largest sent 7) on the fresh state with
20000 bytes in flight. -/
theorem C5_witness :
    (BbrCongestionControlOnDataLost env1 s5w lossW).RecoveryState =
      RECOVERY_STATE.CONSERVATIVE ∧
    (BbrCongestionControlOnDataLost env1 s5w lossW).EndOfRecoveryValid = true ∧
    (BbrCongestionControlOnDataLost env1 s5w lossW).EndOfRecovery =
      lossW.LargestSentPacketNumber ∧
    (BbrCongestionControlOnDataLost env1 s5w lossW).EndOfRoundTripValid = true ∧
    (BbrCongestionControlOnDataLost env1 s5w lossW).EndOfRoundTrip =
      lossW.LargestSentPacketNumber ∧
    (BbrCongestionControlOnDataLost env1 s5w lossW).BytesInFlight =
      s5w.BytesInFlight - lossW.NumRetransmittableBytes ∧
    (BbrCongestionControlOnDataLost env1 s5w lossW).RecoveryWindow =
      (if lossW.NumRetransmittableBytes + kMinCwndInMss * env1.DatagramPayloadLength <
          max (s5w.BytesInFlight - lossW.NumRetransmittableBytes)
            (kMinCwndInMss * env1.DatagramPayloadLength) then
        max (s5w.BytesInFlight - lossW.NumRetransmittableBytes)
          (kMinCwndInMss * env1.DatagramPayloadLength) - lossW.NumRetransmittableBytes
      else kMinCwndInMss * env1.DatagramPayloadLength) :=
  C5_recovery_entry env1 s5w lossW (by decide) (by decide) (by decide) (by decide)

/-- `BbrCongestionControlUpdateCongestionWindow` writes only `SendQuantum` and
`CongestionWindow`: every other field is returned unchanged. -/
theorem updateCongestionWindow_frame (env : BbrEnv) (s : QUIC_CONGESTION_CONTROL_BBR)
    (a b : Nat) :
    (BbrCongestionControlUpdateCongestionWindow env s a b).BytesInFlight = s.BytesInFlight ∧
    (BbrCongestionControlUpdateCongestionWindow env s a b).MinRtt = s.MinRtt ∧
    (BbrCongestionControlUpdateCongestionWindow env s a b).MinRttTimestamp =
      s.MinRttTimestamp ∧
    (BbrCongestionControlUpdateCongestionWindow env s a b).MinRttTimestampValid =
      s.MinRttTimestampValid ∧
    (BbrCongestionControlUpdateCongestionWindow env s a b).RoundTripCounter =
      s.RoundTripCounter ∧
    (BbrCongestionControlUpdateCongestionWindow env s a b).RecoveryState = s.RecoveryState ∧
    (BbrCongestionControlUpdateCongestionWindow env s a b).RecoveryWindow = s.RecoveryWindow ∧
    (BbrCongestionControlUpdateCongestionWindow env s a b).BbrState = s.BbrState ∧
    (BbrCongestionControlUpdateCongestionWindow env s a b).PacingGain = s.PacingGain ∧
    (BbrCongestionControlUpdateCongestionWindow env s a b).BandwidthFilter =
      s.BandwidthFilter ∧
    (BbrCongestionControlUpdateCongestionWindow env s a b).AggregatedAckBytes =
      s.AggregatedAckBytes ∧
    (BbrCongestionControlUpdateCongestionWindow env s a b).AckAggregationStartTime =
      s.AckAggregationStartTime ∧
    (BbrCongestionControlUpdateCongestionWindow env s a b).AckAggregationStartTimeValid =
      s.AckAggregationStartTimeValid ∧
    (BbrCongestionControlUpdateCongestionWindow env s a b).MaxAckHeightFilter =
      s.MaxAckHeightFilter ∧
    (BbrCongestionControlUpdateCongestionWindow env s a b).InitialCongestionWindowPackets =
      s.InitialCongestionWindowPackets ∧
    (BbrCongestionControlUpdateCongestionWindow env s a b).InitialCongestionWindow =
      s.InitialCongestionWindow := by
  unfold BbrCongestionControlUpdateCongestionWindow BbrCongestionControlSetSendQuantum
  split <;> simp

/-- C8: an ack event with `is_implicit = true` performs only the congestion
window update (which also recomputes the send quantum): the result equals
`UpdateCongestionWindow` on the incoming state, and bytes in flight, min RTT
with its timestamp, the round-trip counter, the recovery state and window, the
BBR state, the pacing gain, the bandwidth filter, and the ack-aggregation
filter state are all unchanged. -/
theorem C8_implicit_ack_only_updates_cwnd (env : BbrEnv)
    (s : QUIC_CONGESTION_CONTROL_BBR) (ack : QUIC_ACK_EVENT) (rnd1 rnd2 : Nat)
    (h : ack.IsImplicit = true) :
    BbrCongestionControlOnDataAcknowledged env s ack rnd1 rnd2 =
      BbrCongestionControlUpdateCongestionWindow env s
        ack.NumTotalAckedRetransmittableBytes ack.NumRetransmittableBytes ∧
    (BbrCongestionControlOnDataAcknowledged env s ack rnd1 rnd2).BytesInFlight =
      s.BytesInFlight ∧
    (BbrCongestionControlOnDataAcknowledged env s ack rnd1 rnd2).MinRtt = s.MinRtt ∧
    (BbrCongestionControlOnDataAcknowledged env s ack rnd1 rnd2).MinRttTimestamp =
      s.MinRttTimestamp ∧
    (BbrCongestionControlOnDataAcknowledged env s ack rnd1 rnd2).MinRttTimestampValid =
      s.MinRttTimestampValid ∧
    (BbrCongestionControlOnDataAcknowledged env s ack rnd1 rnd2).RoundTripCounter =
      s.RoundTripCounter ∧
    (BbrCongestionControlOnDataAcknowledged env s ack rnd1 rnd2).RecoveryState =
      s.RecoveryState ∧
    (BbrCongestionControlOnDataAcknowledged env s ack rnd1 rnd2).RecoveryWindow =
      s.RecoveryWindow ∧
    (BbrCongestionControlOnDataAcknowledged env s ack rnd1 rnd2).BbrState = s.BbrState ∧
    (BbrCongestionControlOnDataAcknowledged env s ack rnd1 rnd2).PacingGain = s.PacingGain ∧
    (BbrCongestionControlOnDataAcknowledged env s ack rnd1 rnd2).BandwidthFilter =
      s.BandwidthFilter ∧
    (BbrCongestionControlOnDataAcknowledged env s ack rnd1 rnd2).AggregatedAckBytes =
      s.AggregatedAckBytes ∧
    (BbrCongestionControlOnDataAcknowledged env s ack rnd1 rnd2).AckAggregationStartTime =
      s.AckAggregationStartTime ∧
    (BbrCongestionControlOnDataAcknowledged env s ack rnd1 rnd2).AckAggregationStartTimeValid =
      s.AckAggregationStartTimeValid ∧
    (BbrCongestionControlOnDataAcknowledged env s ack rnd1 rnd2).MaxAckHeightFilter =
      s.MaxAckHeightFilter := by
  have he : BbrCongestionControlOnDataAcknowledged env s ack rnd1 rnd2 =
      BbrCongestionControlUpdateCongestionWindow env s
        ack.NumTotalAckedRetransmittableBytes ack.NumRetransmittableBytes := by
    unfold BbrCongestionControlOnDataAcknowledged
    rw [if_pos h]
  obtain ⟨f1, f2, f3, f4, f5, f6, f7, f8, f9, f10, f11, f12, f13, f14, f15, f16⟩ :=
    updateCongestionWindow_frame env s
      ack.NumTotalAckedRetransmittableBytes ack.NumRetransmittableBytes
  rw [he]
  exact ⟨rfl, f1, f2, f3, f4, f5, f6, f7, f8, f9, f10, f11, f12, f13, f14⟩

/-- C8 witness: the implicit ack `ackImplicit` on the fresh state `sInit1`. -/
theorem C8_witness :
    BbrCongestionControlOnDataAcknowledged env1 sInit1 ackImplicit 0 0 =
      BbrCongestionControlUpdateCongestionWindow env1 sInit1
        ackImplicit.NumTotalAckedRetransmittableBytes
        ackImplicit.NumRetransmittableBytes ∧
    (BbrCongestionControlOnDataAcknowledged env1 sInit1 ackImplicit 0 0).BytesInFlight =
      sInit1.BytesInFlight ∧
    (BbrCongestionControlOnDataAcknowledged env1 sInit1 ackImplicit 0 0).MinRtt =
      sInit1.MinRtt ∧
    (BbrCongestionControlOnDataAcknowledged env1 sInit1 ackImplicit 0 0).MinRttTimestamp =
      sInit1.MinRttTimestamp ∧
    (BbrCongestionControlOnDataAcknowledged env1 sInit1 ackImplicit 0 0).MinRttTimestampValid =
      sInit1.MinRttTimestampValid ∧
    (BbrCongestionControlOnDataAcknowledged env1 sInit1 ackImplicit 0 0).RoundTripCounter =
      sInit1.RoundTripCounter ∧
    (BbrCongestionControlOnDataAcknowledged env1 sInit1 ackImplicit 0 0).RecoveryState =
      sInit1.RecoveryState ∧
    (BbrCongestionControlOnDataAcknowledged env1 sInit1 ackImplicit 0 0).RecoveryWindow =
      sInit1.RecoveryWindow ∧
    (BbrCongestionControlOnDataAcknowledged env1 sInit1 ackImplicit 0 0).BbrState =
      sInit1.BbrState ∧
    (BbrCongestionControlOnDataAcknowledged env1 sInit1 ackImplicit 0 0).PacingGain =
      sInit1.PacingGain ∧
    (BbrCongestionControlOnDataAcknowledged env1 sInit1 ackImplicit 0 0).BandwidthFilter =
      sInit1.BandwidthFilter ∧
    (BbrCongestionControlOnDataAcknowledged env1 sInit1 ackImplicit 0 0).AggregatedAckBytes =
      sInit1.AggregatedAckBytes ∧
    (BbrCongestionControlOnDataAcknowledged env1 sInit1 ackImplicit 0 0).AckAggregationStartTime =
      sInit1.AckAggregationStartTime ∧
    (BbrCongestionControlOnDataAcknowledged env1 sInit1 ackImplicit 0 0).AckAggregationStartTimeValid =
      sInit1.AckAggregationStartTimeValid ∧
    (BbrCongestionControlOnDataAcknowledged env1 sInit1 ackImplicit 0 0).MaxAckHeightFilter =
      sInit1.MaxAckHeightFilter :=
  C8_implicit_ack_only_updates_cwnd env1 sInit1 ackImplicit 0 0 (by decide)

/-- Any `uint32_t` remainder is below 2^32. -/
theorem mod_two32_lt (a : Nat) : a % two32 < two32 := Nat.mod_lt _ (by norm_num [two32])

/-- The wrapped `uint32_t` difference of a bounded minuend and a subtrahend
smaller than it by more than `c` stays at least `c` and bounded. -/
theorem u32sub_bounds {M L c : Nat} (hM : M < two32) (hc : L + c < M) :
    c ≤ u32sub M L ∧ u32sub M L < two32 := by
  simp only [u32sub, two32] at *
  omega

/-- Transport of the invariant along equal core fields. -/
theorem BbrMinCwndInv.of_core {env : BbrEnv} {s t : QUIC_CONGESTION_CONTROL_BBR}
    (h : BbrMinCwndInv env s)
    (h1 : t.CongestionWindow = s.CongestionWindow)
    (h2 : t.RecoveryWindow = s.RecoveryWindow)
    (h3 : t.BytesInFlight = s.BytesInFlight)
    (h4 : t.InitialCongestionWindowPackets = s.InitialCongestionWindowPackets) :
    BbrMinCwndInv env t := by
  unfold BbrMinCwndInv at *
  rw [h1, h2, h3, h4]
  exact h

theorem Inv_ackMinRtt {env : BbrEnv} {s : QUIC_CONGESTION_CONTROL_BBR}
    {ack : QUIC_ACK_EVENT} (h : BbrMinCwndInv env s) :
    BbrMinCwndInv env (ackMinRtt s ack) := by
  refine h.of_core ?_ ?_ ?_ ?_ <;> (unfold ackMinRtt; (try dsimp only); split_ifs <;> rfl)

theorem Inv_ackRoundTrip {env : BbrEnv} {s : QUIC_CONGESTION_CONTROL_BBR}
    {ack : QUIC_ACK_EVENT} (h : BbrMinCwndInv env s) :
    BbrMinCwndInv env (ackRoundTrip s ack) := by
  refine h.of_core ?_ ?_ ?_ ?_ <;> (unfold ackRoundTrip; split_ifs <;> rfl)

theorem Inv_ackBandwidthUpdate {env : BbrEnv} {s : QUIC_CONGESTION_CONTROL_BBR}
    {ack : QUIC_ACK_EVENT} (h : BbrMinCwndInv env s) :
    BbrMinCwndInv env (ackBandwidthUpdate s ack) := by
  refine h.of_core ?_ ?_ ?_ ?_ <;> rfl

theorem Inv_updateAckAggregation {env : BbrEnv} {s : QUIC_CONGESTION_CONTROL_BBR}
    {ack : QUIC_ACK_EVENT} (h : BbrMinCwndInv env s) :
    BbrMinCwndInv env (BbrCongestionControlUpdateAckAggregation s ack) := by
  refine h.of_core ?_ ?_ ?_ ?_ <;>
    (unfold BbrCongestionControlUpdateAckAggregation; (try dsimp only); split_ifs <;> rfl)

theorem Inv_ackProbeBwCycle {env : BbrEnv} {s : QUIC_CONGESTION_CONTROL_BBR}
    {ack : QUIC_ACK_EVENT} {prev : Nat} (h : BbrMinCwndInv env s) :
    BbrMinCwndInv env (ackProbeBwCycle s ack prev) := by
  refine h.of_core ?_ ?_ ?_ ?_ <;> (unfold ackProbeBwCycle; (try dsimp only); split_ifs <;> rfl)

theorem Inv_ackStartupDetect {env : BbrEnv} {s : QUIC_CONGESTION_CONTROL_BBR}
    {nrt lal : Bool} (h : BbrMinCwndInv env s) :
    BbrMinCwndInv env (ackStartupDetect s nrt lal) := by
  refine h.of_core ?_ ?_ ?_ ?_ <;> (unfold ackStartupDetect; (try dsimp only); split_ifs <;> rfl)

theorem Inv_ackDrainTransit {env : BbrEnv} {s : QUIC_CONGESTION_CONTROL_BBR}
    (h : BbrMinCwndInv env s) : BbrMinCwndInv env (ackDrainTransit s) := by
  refine h.of_core ?_ ?_ ?_ ?_ <;>
    (unfold ackDrainTransit BbrCongestionControlTransitToDrain; split_ifs <;> rfl)

theorem Inv_ackProbeBwTransit {env : BbrEnv} {s : QUIC_CONGESTION_CONTROL_BBR}
    {time rnd : Nat} (h : BbrMinCwndInv env s) :
    BbrMinCwndInv env (ackProbeBwTransit s time rnd) := by
  refine h.of_core ?_ ?_ ?_ ?_ <;>
    (unfold ackProbeBwTransit BbrCongestionControlTransitToProbeBw; (try dsimp only); split_ifs <;> rfl)

theorem Inv_ackProbeRttTransit {env : BbrEnv} {s : QUIC_CONGESTION_CONTROL_BBR}
    {lsp : Nat} (h : BbrMinCwndInv env s) :
    BbrMinCwndInv env (ackProbeRttTransit s lsp) := by
  refine h.of_core ?_ ?_ ?_ ?_ <;>
    (unfold ackProbeRttTransit BbrCongestionControlTransitToProbeRtt; (try dsimp only); split_ifs <;> rfl)

theorem Inv_ackClearQuiescence {env : BbrEnv} {s : QUIC_CONGESTION_CONTROL_BBR}
    (h : BbrMinCwndInv env s) : BbrMinCwndInv env (ackClearQuiescence s) := by
  refine h.of_core ?_ ?_ ?_ ?_ <;> rfl

set_option maxHeartbeats 1000000 in
theorem Inv_ackProbeRttHandle {env : BbrEnv} {s : QUIC_CONGESTION_CONTROL_BBR}
    {nrt : Bool} {lsp time rnd : Nat} (h : BbrMinCwndInv env s) :
    BbrMinCwndInv env (ackProbeRttHandle env s nrt lsp time rnd) := by
  refine h.of_core ?_ ?_ ?_ ?_ <;>
    (unfold ackProbeRttHandle BbrCongestionControlHandleAckInProbeRtt
       BbrCongestionControlTransitToProbeBw BbrCongestionControlTransitToStartup
     (try dsimp only)
     split_ifs <;> rfl)

theorem Inv_ackSubInflight {env : BbrEnv} {s : QUIC_CONGESTION_CONTROL_BBR} {n : Nat}
    (h : BbrMinCwndInv env s) : BbrMinCwndInv env (ackSubInflight s n) := by
  obtain ⟨c1, c2, c3, c4, c5⟩ := h
  exact ⟨c1, c2, c3, by simp only [ackSubInflight]; omega, c5⟩

theorem Inv_updateRecoveryWindow {env : BbrEnv} {s : QUIC_CONGESTION_CONTROL_BBR}
    {n : Nat} (hmss : env.DatagramPayloadLength < 65536) (h : BbrMinCwndInv env s) :
    BbrMinCwndInv env (BbrCongestionControlUpdateRecoveryWindow env s n) := by
  obtain ⟨c1, c2, c3, c4, c5⟩ := h
  have hmin : kMinCwndInMss * env.DatagramPayloadLength < two32 := by
    simp only [kMinCwndInMss, two32]; omega
  unfold BbrCongestionControlUpdateRecoveryWindow BbrMinCwndInv
  dsimp only
  refine ⟨c1, c2, le_max_right _ _, c4, ?_⟩
  refine max_lt (max_lt ?_ (mod_two32_lt _)) hmin
  split_ifs
  · exact mod_two32_lt _
  · exact c5

theorem Inv_ackRecovery {env : BbrEnv} {s : QUIC_CONGESTION_CONTROL_BBR}
    {ack : QUIC_ACK_EVENT} {nrt : Bool}
    (hmss : env.DatagramPayloadLength < 65536) (h : BbrMinCwndInv env s) :
    BbrMinCwndInv env (ackRecovery env s ack nrt) := by
  unfold ackRecovery
  dsimp only
  split_ifs <;>
    first
      | exact h
      | exact h.of_core rfl rfl rfl rfl
      | exact Inv_updateRecoveryWindow hmss (h.of_core rfl rfl rfl rfl)

theorem Inv_onDataSent {env : BbrEnv} {s : QUIC_CONGESTION_CONTROL_BBR} {n : Nat}
    (h : BbrMinCwndInv env s) : BbrMinCwndInv env (BbrCongestionControlOnDataSent s n) := by
  obtain ⟨c1, c2, c3, c4, c5⟩ := h
  unfold BbrCongestionControlOnDataSent
  dsimp only
  split_ifs <;> exact ⟨c1, c2, c3, mod_two32_lt _, c5⟩

theorem Inv_onDataInvalidated {env : BbrEnv} {s : QUIC_CONGESTION_CONTROL_BBR} {n : Nat}
    (h : BbrMinCwndInv env s) :
    BbrMinCwndInv env (BbrCongestionControlOnDataInvalidated s n) := by
  obtain ⟨c1, c2, c3, c4, c5⟩ := h
  exact ⟨c1, c2, c3, by simp only [BbrCongestionControlOnDataInvalidated]; omega, c5⟩

theorem Inv_onDataLost {env : BbrEnv} {s : QUIC_CONGESTION_CONTROL_BBR}
    {L : QUIC_LOSS_EVENT} (hmss : env.DatagramPayloadLength < 65536)
    (hloss : L.NumRetransmittableBytes + kMinCwndInMss * env.DatagramPayloadLength < two32)
    (h : BbrMinCwndInv env s) :
    BbrMinCwndInv env (BbrCongestionControlOnDataLost env s L) := by
  obtain ⟨c1, c2, c3, c4, c5⟩ := h
  have hmin : kMinCwndInMss * env.DatagramPayloadLength < two32 := by
    simp only [kMinCwndInMss, two32] at *; omega
  have hB : s.BytesInFlight - L.NumRetransmittableBytes < two32 := by omega
  have hM1 : kMinCwndInMss * env.DatagramPayloadLength ≤
      max (s.BytesInFlight - L.NumRetransmittableBytes)
        (kMinCwndInMss * env.DatagramPayloadLength) := le_max_right _ _
  have hM2 : max (s.BytesInFlight - L.NumRetransmittableBytes)
      (kMinCwndInMss * env.DatagramPayloadLength) < two32 := max_lt hB hmin
  unfold BbrCongestionControlOnDataLost
  dsimp only
  rw [Nat.mod_eq_of_lt hloss]
  split_ifs <;>
    (refine ⟨c1, c2, ?_, hB, ?_⟩ <;> (simp only [u32sub, two32] at *; omega))

theorem Inv_setAppLimited {env : BbrEnv} {s : QUIC_CONGESTION_CONTROL_BBR} {lsp : Nat}
    (h : BbrMinCwndInv env s) :
    BbrMinCwndInv env (BbrCongestionControlSetAppLimited env s lsp) := by
  refine h.of_core ?_ ?_ ?_ ?_ <;>
    (unfold BbrCongestionControlSetAppLimited; split_ifs <;> rfl)

theorem Inv_setExemption {env : BbrEnv} {s : QUIC_CONGESTION_CONTROL_BBR} {n : Nat}
    (h : BbrMinCwndInv env s) :
    BbrMinCwndInv env (BbrCongestionControlSetExemption s n) :=
  h.of_core rfl rfl rfl rfl

theorem Inv_reset {env : BbrEnv} {s : QUIC_CONGESTION_CONTROL_BBR} {full : Bool} {now : Nat}
    (hmss : env.DatagramPayloadLength < 65536) (h : BbrMinCwndInv env s) :
    BbrMinCwndInv env (BbrCongestionControlReset env s full now) := by
  obtain ⟨c1, c2, c3, c4, c5⟩ := h
  have hrw : kDefaultRecoveryCwndInMss * env.DatagramPayloadLength < two32 := by
    simp only [kDefaultRecoveryCwndInMss, two32]; omega
  refine ⟨c1, c1, ?_, ?_, ?_⟩
  · show kMinCwndInMss * env.DatagramPayloadLength ≤
      kDefaultRecoveryCwndInMss * env.DatagramPayloadLength % two32
    rw [Nat.mod_eq_of_lt hrw]
    exact Nat.mul_le_mul_right _ (by norm_num [kMinCwndInMss, kDefaultRecoveryCwndInMss])
  · show (if full then 0 else s.BytesInFlight) < two32
    split_ifs
    · exact Nat.pos_of_ne_zero (by norm_num [two32])
    · exact c4
  · exact mod_two32_lt _

theorem updateCongestionWindow_cwnd_ge (env : BbrEnv) (s : QUIC_CONGESTION_CONTROL_BBR)
    (a b : Nat) (h : kMinCwndInMss * env.DatagramPayloadLength ≤ s.CongestionWindow) :
    kMinCwndInMss * env.DatagramPayloadLength ≤
      (BbrCongestionControlUpdateCongestionWindow env s a b).CongestionWindow := by
  unfold BbrCongestionControlUpdateCongestionWindow
  dsimp only
  split_ifs <;> first | exact h | exact le_max_right _ _

theorem Inv_updateCongestionWindow {env : BbrEnv} {s : QUIC_CONGESTION_CONTROL_BBR}
    {a b : Nat} (h : BbrMinCwndInv env s) :
    BbrMinCwndInv env (BbrCongestionControlUpdateCongestionWindow env s a b) := by
  obtain ⟨f1, f2, f3, f4, f5, f6, f7, f8, f9, f10, f11, f12, f13, f14, f15, f16⟩ :=
    updateCongestionWindow_frame env s a b
  obtain ⟨c1, c2, c3, c4, c5⟩ := h
  refine ⟨?_, updateCongestionWindow_cwnd_ge env s a b c2, ?_, ?_, ?_⟩
  · rw [f15]; exact c1
  · rw [f7]; exact c3
  · rw [f1]; exact c4
  · rw [f7]; exact c5

theorem Inv_onDataAcknowledged {env : BbrEnv} {s : QUIC_CONGESTION_CONTROL_BBR}
    {ack : QUIC_ACK_EVENT} {rnd1 rnd2 : Nat}
    (hmss : env.DatagramPayloadLength < 65536) (h : BbrMinCwndInv env s) :
    BbrMinCwndInv env (BbrCongestionControlOnDataAcknowledged env s ack rnd1 rnd2) := by
  unfold BbrCongestionControlOnDataAcknowledged
  dsimp only
  split_ifs with himp
  · exact Inv_updateCongestionWindow h
  all_goals
    exact Inv_updateCongestionWindow
      (Inv_ackProbeRttHandle
        (Inv_ackClearQuiescence
          (Inv_ackProbeRttTransit
            (Inv_ackProbeBwTransit
              (Inv_ackDrainTransit
                (Inv_ackStartupDetect
                  (Inv_ackProbeBwCycle
                    (Inv_updateAckAggregation
                      (Inv_ackRecovery hmss
                        (Inv_ackBandwidthUpdate
                          (Inv_ackRoundTrip
                            (Inv_ackMinRtt
                              (Inv_ackSubInflight h)))))))))))))

theorem Inv_step {env : BbrEnv} {s : QUIC_CONGESTION_CONTROL_BBR} {e : BbrEvent}
    (hmss : env.DatagramPayloadLength < 65536) (he : lossBytesOk env e = true)
    (h : BbrMinCwndInv env s) : BbrMinCwndInv env (bbrStep env s e) := by
  cases e with
  | dataSent n => exact Inv_onDataSent h
  | dataInvalidated n => exact Inv_onDataInvalidated h
  | dataAcked ack r1 r2 => exact Inv_onDataAcknowledged hmss h
  | dataLost l =>
      exact Inv_onDataLost hmss (of_decide_eq_true (by simpa [lossBytesOk] using he)) h
  | spuriousCongestion => exact h
  | setAppLimited n => exact Inv_setAppLimited h
  | setExemption n => exact Inv_setExemption h
  | reset full now => exact Inv_reset hmss h

theorem Inv_run {env : BbrEnv} {s : QUIC_CONGESTION_CONTROL_BBR}
    {events : List BbrEvent} (hmss : env.DatagramPayloadLength < 65536)
    (hl : ∀ e ∈ events, lossBytesOk env e = true) (h : BbrMinCwndInv env s) :
    BbrMinCwndInv env (bbrRun env s events) := by
  induction events generalizing s with
  | nil => exact h
  | cons e es ih =>
      exact ih (fun x hx => hl x (List.mem_cons_of_mem _ hx))
        (Inv_step hmss (hl e (List.mem_cons_self _ _)) h)

theorem Inv_getCongestionWindow {env : BbrEnv} {s : QUIC_CONGESTION_CONTROL_BBR}
    (h : BbrMinCwndInv env s) :
    kMinCwndInMss * env.DatagramPayloadLength ≤
      BbrCongestionControlGetCongestionWindow env s := by
  obtain ⟨c1, c2, c3, c4, c5⟩ := h
  unfold BbrCongestionControlGetCongestionWindow
  dsimp only
  split_ifs with h1 h2
  · exact le_refl _
  · exact le_min c2 c3
  · exact c2

/-- C3 (amended): for settings with `initial_window_packets >= 4` whose initial
window product does not overflow `uint32_t`, a `uint16_t`-sized datagram
payload, and event sequences whose loss events cannot wrap the `uint32_t`
recovery-window deflation, `GetCongestionWindow()` stays at or above
`min_cwnd = 4 * datagram_payload_size` at all times after `Initialize`. -/
theorem C3_min_cwnd_invariant (env : BbrEnv) (iwp now : Nat) (events : List BbrEvent)
    (hmss : env.DatagramPayloadLength < 65536)
    (hiwp : 4 ≤ iwp)
    (hprod : iwp * env.DatagramPayloadLength < two32)
    (hloss : ∀ e ∈ events, lossBytesOk env e = true) :
    kMinCwndInMss * env.DatagramPayloadLength ≤
      BbrCongestionControlGetCongestionWindow env
        (bbrRun env (BbrCongestionControlInitState env iwp now) events) := by
  have hinit : BbrMinCwndInv env (BbrCongestionControlInitState env iwp now) := by
    have hcw : kMinCwndInMss * env.DatagramPayloadLength ≤
        iwp * env.DatagramPayloadLength % two32 := by
      rw [Nat.mod_eq_of_lt hprod]
      exact Nat.mul_le_mul_right _ (by simpa [kMinCwndInMss] using hiwp)
    have hrw : kDefaultRecoveryCwndInMss * env.DatagramPayloadLength < two32 := by
      simp only [kDefaultRecoveryCwndInMss, two32]; omega
    refine ⟨hcw, hcw, ?_, ?_, mod_two32_lt _⟩
    · show kMinCwndInMss * env.DatagramPayloadLength ≤
        kDefaultRecoveryCwndInMss * env.DatagramPayloadLength % two32
      rw [Nat.mod_eq_of_lt hrw]
      exact Nat.mul_le_mul_right _
        (by norm_num [kMinCwndInMss, kDefaultRecoveryCwndInMss])
    · show (0 : Nat) < two32
      norm_num [two32]
  exact Inv_getCongestionWindow (Inv_run hmss hloss hinit)

/-- C3 witness: `Initialize` with 10 packets on `env1` followed by a send, a
loss, an ack and a full reset. -/
theorem C3_witness :
    kMinCwndInMss * env1.DatagramPayloadLength ≤
      BbrCongestionControlGetCongestionWindow env1
        (bbrRun env1 (BbrCongestionControlInitState env1 10 0) eventsW) :=
  C3_min_cwnd_invariant env1 10 0 eventsW (by decide) (by decide) (by decide) (by decide)
